import Mathlib

/-!
Verification development for the `scraper-tools` repository, centred on the
proxy module (`src/scraper_tools/proxy.py`) and the retry decorator
(`src/scraper_tools/functools.py`).

The Python code is shallowly embedded: Python strings stay `String`, Python
`int` is `Int`, fallible Python code returns `Except PyError`, the process
environment and filesystem are explicit parameters, and `random.shuffle` is
an explicit permutation parameter.
-/

deriving instance DecidableEq for Except

namespace ScraperTools

/-! ### Python string primitives

Models of the CPython operations the proxy module uses: `str.strip()`,
`str.split(sep)` and `int(str)`. -/

/-- The ASCII whitespace characters stripped by Python `str.strip()`. -/
def isPySpace (c : Char) : Bool :=
  c = ' ' || c = '\t' || c = '\n' || c = '\r' || c = '\x0b' || c = '\x0c'

/-- Python `str.strip()` on the character list: drop whitespace from both ends. -/
def pyStripList (cs : List Char) : List Char :=
  ((cs.dropWhile isPySpace).reverse.dropWhile isPySpace).reverse

/-- Python `str.strip()`. -/
def pyStrip (s : String) : String :=
  String.mk (pyStripList s.data)

/-- Auxiliary for `pySplit`: accumulate the current field (reversed) while
scanning. Mirrors Python `str.split(sep)` with an explicit one-character
separator: `"".split(sep) == [""]` and empty fields are kept. -/
def pySplitAux (sep : Char) : List Char → List Char → List (List Char)
  | [], acc => [acc.reverse]
  | c :: cs, acc =>
    if c = sep then acc.reverse :: pySplitAux sep cs []
    else pySplitAux sep cs (c :: acc)

/-- Python `str.split(sep)` for a one-character separator. -/
def pySplit (sep : Char) (s : String) : List String :=
  (pySplitAux sep s.data []).map String.mk

/-- Digit-run grammar after the first digit of a Python integer literal:
digits with single underscores allowed only between digits. -/
def pyDigitsRest : List Char → Bool
  | [] => true
  | '_' :: rest =>
    match rest with
    | c :: rest2 => c.isDigit && pyDigitsRest rest2
    | [] => false
  | c :: rest => c.isDigit && pyDigitsRest rest

/-- The digit part accepted by Python `int(str)`: nonempty, starts with a
digit, underscores only between digits. -/
def pyDigits : List Char → Bool
  | [] => false
  | c :: rest => c.isDigit && pyDigitsRest rest

/-- Numeric value of a digit list (underscores removed by the caller). -/
def digitsToNat (cs : List Char) : Nat :=
  cs.foldl (fun acc c => 10 * acc + (c.toNat - '0'.toNat)) 0

/-- Python `int(str)`: surrounding whitespace stripped, optional sign, then
decimal digits (single underscores between digits allowed). `none` models the
`ValueError` CPython raises for an invalid literal. -/
def pythonInt (s : String) : Option Int :=
  match pyStripList s.data with
  | '+' :: rest =>
    if pyDigits rest then some (Int.ofNat (digitsToNat (rest.filter (fun c => c ≠ '_'))))
    else none
  | '-' :: rest =>
    if pyDigits rest then some (-Int.ofNat (digitsToNat (rest.filter (fun c => c ≠ '_'))))
    else none
  | rest =>
    if pyDigits rest then some (Int.ofNat (digitsToNat (rest.filter (fun c => c ≠ '_'))))
    else none

/-- Python truthiness of an `Optional[str]`: `None` and `""` are falsy. -/
def pyTruthy : Option String → Bool
  | none => false
  | some s => decide (s ≠ "")

/-! ### Data model (`proxy.py`) -/

/-- `ProxyScheme = Literal["http", "socks5"]` (proxy.py:19). -/
inductive ProxyScheme
  | http
  | socks5
deriving DecidableEq

/-- Rendering of a scheme back to its Python literal string. -/
def ProxyScheme.str : ProxyScheme → String
  | .http => "http"
  | .socks5 => "socks5"

/-- Pydantic validation of a `Literal["http", "socks5"]` field from a raw
string (exact, case-sensitive match). -/
def parseScheme : String → Option ProxyScheme
  | "http" => some ProxyScheme.http
  | "socks5" => some ProxyScheme.socks5
  | _ => none

/-- The Python exceptions the proxy module can raise. The three `ValueError`
sites are kept apart by constructor; `validationError` is the pydantic
`ValidationError`, `fileNotFound` is `FileNotFoundError`, `exception` is a
bare `Exception` with its message. -/
inductive PyError
  | formatError
  | intParseError (literal : String)
  | emptyFileError
  | validationError
  | fileNotFound
  | exception (msg : String)
deriving DecidableEq

/-- `StaticProxy` (proxy.py:47-56): a pydantic model with an unconstrained
`int` port and optional credential strings. -/
structure StaticProxy where
  scheme : ProxyScheme
  host : String
  port : Int
  username : Option String
  password : Option String
deriving DecidableEq

instance : Inhabited StaticProxy :=
  ⟨⟨ProxyScheme.http, "", 0, none, none⟩⟩

/-- `StaticProxy.from_proxy_row` (proxy.py:58-84): strip the row, split on
`:`, accept exactly 4 or exactly 2 fields, convert the port with `int(...)`
(which raises `ValueError` on a bad literal), otherwise raise the
`Invalid proxy row` `ValueError`. -/
def StaticProxy.from_proxy_row (row : String) (scheme : ProxyScheme := ProxyScheme.http) :
    Except PyError StaticProxy :=
  match pySplit ':' (pyStrip row) with
  | [host, port, username, password] =>
    match pythonInt port with
    | some n => Except.ok ⟨scheme, host, n, some username, some password⟩
    | none => Except.error (PyError.intParseError port)
  | [host, port] =>
    match pythonInt port with
    | some n => Except.ok ⟨scheme, host, n, none, none⟩
    | none => Except.error (PyError.intParseError port)
  | _ => Except.error PyError.formatError

/-- `StaticProxy.server` (proxy.py:86-88): `f"{scheme}://{host}:{port}"`. -/
def StaticProxy.server (p : StaticProxy) : String :=
  p.scheme.str ++ "://" ++ p.host ++ ":" ++ toString p.port

/-- `playwright.async_api.ProxySettings`. -/
structure PlaywrightProxy where
  server : String
  username : Option String
  password : Option String
deriving DecidableEq

/-- `StaticProxy.playwright` (proxy.py:90-96): credentials passed through
as-is, possibly absent. -/
def StaticProxy.playwright (p : StaticProxy) : PlaywrightProxy :=
  ⟨p.server, p.username, p.password⟩

/-- `httpx.Proxy`: the proxy url plus an optional `(username, password)`
auth pair. -/
structure HttpxProxy where
  url : String
  auth : Option (String × String)
deriving DecidableEq

/-- `StaticProxy.httpx` (proxy.py:98-105): auth is attached when
`self.username and self.password` is truthy, i.e. both are present and
non-empty; otherwise `auth=None`. -/
def StaticProxy.httpx (p : StaticProxy) : HttpxProxy :=
  ⟨p.server,
    if pyTruthy p.username && pyTruthy p.password then
      some (p.username.getD "", p.password.getD "")
    else none⟩

/-- `pydantic_core.Url` as built by `Url.build` (proxy.py:108-115), kept
structural. -/
structure Url where
  scheme : ProxyScheme
  host : String
  port : Int
  username : Option String
  password : Option String
deriving DecidableEq

/-- `StaticProxy.url` (proxy.py:107-115). -/
def StaticProxy.url (p : StaticProxy) : Url :=
  ⟨p.scheme, p.host, p.port, p.username, p.password⟩

/-! ### RotatingProxy (proxy.py:118-152)

The Python class holds `itertools.cycle(proxies)`; the cycle iterator is a
fixed element list plus a position, so the state is embedded as that pair.
`next` is `__next__`: when built over a non-empty list it yields the element
at the cursor modulo the length and advances the cursor; `cycle([])` raises
`StopIteration` on its first `next`, embedded as `none`. -/
structure RotatingProxy where
  proxies : List StaticProxy
  cursor : Nat
deriving DecidableEq

/-- `RotatingProxy.__init__` (proxy.py:127-128): wrap the list in a fresh
cycle iterator, cursor at the start. -/
def RotatingProxy.ofList (ps : List StaticProxy) : RotatingProxy :=
  ⟨ps, 0⟩

/-- `RotatingProxy.__next__` (proxy.py:136-140) via the semantics of
`itertools.cycle`. -/
def RotatingProxy.next (r : RotatingProxy) : Option (StaticProxy × RotatingProxy) :=
  match r.proxies[r.cursor % r.proxies.length]? with
  | some p => some (p, ⟨r.proxies, r.cursor + 1⟩)
  | none => none

/-- `RotatingProxy.url` (proxy.py:150-152): `next(self).url()`. -/
def RotatingProxy.url (r : RotatingProxy) : Option (Url × RotatingProxy) :=
  match r.next with
  | some (p, r2) => some (p.url, r2)
  | none => none

/-- `RotatingProxy.playwright` (proxy.py:142-144): `next(self).playwright()`. -/
def RotatingProxy.playwright (r : RotatingProxy) : Option (PlaywrightProxy × RotatingProxy) :=
  match r.next with
  | some (p, r2) => some (p.playwright, r2)
  | none => none

/-- `RotatingProxy.httpx` (proxy.py:146-148): `next(self).httpx()`. -/
def RotatingProxy.httpx (r : RotatingProxy) : Option (HttpxProxy × RotatingProxy) :=
  match r.next with
  | some (p, r2) => some (p.httpx, r2)
  | none => none

/-- Tag for the three conversion methods of the `Proxy` interface. -/
inductive ConvMethod
  | url
  | playwright
  | httpx
deriving DecidableEq

/-- The result of one conversion call, tagged by method. -/
inductive ConvResult
  | url (u : Url)
  | playwright (d : PlaywrightProxy)
  | httpx (d : HttpxProxy)
deriving DecidableEq

/-- A `StaticProxy` conversion, dispatched by method tag. -/
def StaticProxy.convert (p : StaticProxy) : ConvMethod → ConvResult
  | ConvMethod.url => ConvResult.url p.url
  | ConvMethod.playwright => ConvResult.playwright p.playwright
  | ConvMethod.httpx => ConvResult.httpx p.httpx

/-- A `RotatingProxy` conversion, dispatched by method tag. -/
def RotatingProxy.convert (r : RotatingProxy) : ConvMethod → Option (ConvResult × RotatingProxy)
  | ConvMethod.url =>
    match r.url with
    | some (u, r2) => some (ConvResult.url u, r2)
    | none => none
  | ConvMethod.playwright =>
    match r.playwright with
    | some (d, r2) => some (ConvResult.playwright d, r2)
    | none => none
  | ConvMethod.httpx =>
    match r.httpx with
    | some (d, r2) => some (ConvResult.httpx d, r2)
    | none => none

/-- The trace of `k` successive `__next__` calls: the returned proxies in
order, and the final iterator state (stops early only if the list is empty). -/
def RotatingProxy.run : RotatingProxy → Nat → List StaticProxy × RotatingProxy
  | r, 0 => ([], r)
  | r, k + 1 =>
    match r.next with
    | none => ([], r)
    | some (p, r2) =>
      let rest := r2.run k
      (p :: rest.1, rest.2)

/-! ### Configuration loading (proxy.py:234-311)

`ProxyFile` and `ProxyEnv` are `pydantic_settings.BaseSettings` models: their
constructors read the process environment and raise `ValidationError` when a
required field is missing or a field fails validation. The environment and
the filesystem are embedded as explicit read-only values. -/

/-- The process environment, restricted to the variables the two settings
classes read. Field order: PROXY_FILE_PATH, PROXY_SCHEME, PROXY_HOST,
PROXY_PORT, PROXY_USERNAME, PROXY_PASSWORD. -/
structure Env where
  PROXY_FILE_PATH : Option String
  PROXY_SCHEME : Option String
  PROXY_HOST : Option String
  PROXY_PORT : Option String
  PROXY_USERNAME : Option String
  PROXY_PASSWORD : Option String
deriving DecidableEq

/-- The filesystem as a path → contents association list; a missing path
models `FileNotFoundError` on `open`. -/
abbrev FS := List (String × String)

/-- `ProxyFile` settings (proxy.py:243-244): required `PROXY_FILE_PATH`,
`PROXY_SCHEME` defaulting to `"http"`. -/
structure ProxyFile where
  PROXY_FILE_PATH : String
  PROXY_SCHEME : ProxyScheme
deriving DecidableEq

/-- `ProxyFile()` construction by pydantic-settings: `PROXY_FILE_PATH` is
required; `PROXY_SCHEME`, when set, must be a valid literal, and defaults to
`http` when unset. A missing required field or invalid literal raises
`ValidationError`. -/
def ProxyFile.ofEnv (e : Env) : Except PyError ProxyFile :=
  match e.PROXY_FILE_PATH with
  | none => Except.error PyError.validationError
  | some path =>
    match e.PROXY_SCHEME with
    | none => Except.ok ⟨path, ProxyScheme.http⟩
    | some raw =>
      match parseScheme raw with
      | some scheme => Except.ok ⟨path, scheme⟩
      | none => Except.error PyError.validationError

/-- The row-parsing loop of `ProxyFile.load` (proxy.py:250-257): strip each
line, skip blanks, parse the rest with `from_proxy_row`; the `ValueError` of the
first bad row aborts the whole load. -/
def parseRows (scheme : ProxyScheme) : List String → Except PyError (List StaticProxy)
  | [] => Except.ok []
  | line :: rest =>
    let cleaned := pyStrip line
    if cleaned = "" then parseRows scheme rest
    else
      match StaticProxy.from_proxy_row cleaned scheme with
      | Except.error err => Except.error err
      | Except.ok p =>
        match parseRows scheme rest with
        | Except.error err => Except.error err
        | Except.ok ps => Except.ok (p :: ps)

/-- `ProxyFile.load` (proxy.py:249-261): open the file (missing file raises
`FileNotFoundError`), parse the non-blank rows, raise
`ValueError("Proxy file is empty")` when none remain, otherwise
`random.shuffle` the list (the permutation is the explicit `shuffle`
parameter) and wrap it in a `RotatingProxy`. -/
def ProxyFile.load (cfg : ProxyFile) (fs : FS)
    (shuffle : List StaticProxy → List StaticProxy) : Except PyError RotatingProxy :=
  match fs.lookup cfg.PROXY_FILE_PATH with
  | none => Except.error PyError.fileNotFound
  | some content =>
    match parseRows cfg.PROXY_SCHEME (pySplit '\n' content) with
    | Except.error err => Except.error err
    | Except.ok proxies =>
      if proxies.isEmpty then Except.error PyError.emptyFileError
      else Except.ok (RotatingProxy.ofList (shuffle proxies))

/-- `ProxyEnv` settings (proxy.py:269-273). In pydantic v2 a field annotated
`str | None` WITHOUT a default is still required, so all five variables must
be present in the environment for validation to pass. -/
structure ProxyEnv where
  PROXY_HOST : String
  PROXY_SCHEME : ProxyScheme
  PROXY_PORT : Int
  PROXY_USERNAME : Option String
  PROXY_PASSWORD : Option String
deriving DecidableEq

/-- `ProxyEnv()` construction by pydantic-settings: every field lacks a
default, so each of the five variables must be set; the scheme must be a
valid literal and the port must parse as an integer (the string-to-int
coercion is modelled by Python `int(str)`). -/
def ProxyEnv.ofEnv (e : Env) : Except PyError ProxyEnv :=
  match e.PROXY_HOST, e.PROXY_SCHEME, e.PROXY_PORT, e.PROXY_USERNAME, e.PROXY_PASSWORD with
  | some host, some rawScheme, some rawPort, some username, some password =>
    match parseScheme rawScheme, pythonInt rawPort with
    | some scheme, some port =>
      Except.ok ⟨host, scheme, port, some username, some password⟩
    | _, _ => Except.error PyError.validationError
  | _, _, _, _, _ => Except.error PyError.validationError

/-- `ProxyEnv.proxy` (proxy.py:278-285). -/
def ProxyEnv.proxy (cfg : ProxyEnv) : StaticProxy :=
  ⟨cfg.PROXY_SCHEME, cfg.PROXY_HOST, cfg.PROXY_PORT, cfg.PROXY_USERNAME, cfg.PROXY_PASSWORD⟩

/-- The value returned by `load_proxy_env`: either concrete `Proxy`
implementation. -/
inductive LoadedProxy
  | static (p : StaticProxy)
  | rotating (r : RotatingProxy)
deriving DecidableEq

/-- The exception classes caught by the first `except` clause of
`load_proxy_env` (proxy.py:297): `(ValidationError, FileNotFoundError)`.
The `ValueError` variants fall outside it. -/
def caughtByFileFallback : PyError → Bool
  | PyError.validationError => true
  | PyError.fileNotFound => true
  | _ => false

/-- The message of the final `Exception` of `load_proxy_env` (proxy.py:309-311). -/
def noValidMsg : String :=
  "No valid proxy settings found. Provide either variables for `ProxyEnv` or for `ProxyFile`"

/-- The second half of `load_proxy_env` (proxy.py:301-311): try `ProxyEnv()`,
catching only `ValidationError`, and fall through to the final bare
`Exception`. -/
def tryProxyEnv (e : Env) : Except PyError LoadedProxy :=
  match ProxyEnv.ofEnv e with
  | Except.ok cfg => Except.ok (LoadedProxy.static cfg.proxy)
  | Except.error PyError.validationError => Except.error (PyError.exception noValidMsg)
  | Except.error err => Except.error err

/-- `load_proxy_env` (proxy.py:288-311): try `ProxyFile()` + `.load()` first,
catching `(ValidationError, FileNotFoundError)` as the signal to fall back to
`ProxyEnv`; any other exception (the `ValueError`s of a broken file)
propagates unchanged. -/
def load_proxy_env (e : Env) (fs : FS)
    (shuffle : List StaticProxy → List StaticProxy) : Except PyError LoadedProxy :=
  match ProxyFile.ofEnv e with
  | Except.ok cfg =>
    match ProxyFile.load cfg fs shuffle with
    | Except.ok r => Except.ok (LoadedProxy.rotating r)
    | Except.error err =>
      if caughtByFileFallback err then tryProxyEnv e
      else Except.error err
  | Except.error err =>
    if caughtByFileFallback err then tryProxyEnv e
    else Except.error err

/-! ### The retry decorator (functools.py:23-52)

The wrapped coroutine is embedded as the outcome of its successive calls:
`f k` is what the `k`-th call does, `Except.ok` a return, `Except.error` a
raised exception (its message). The `while True` loop is run on explicit
fuel: `running` means the loop is still going after that many iterations.
`delay`/`asyncio.sleep` only spend time, so they are not modelled. -/

/-- Observable outcome of the retry wrapper after a bounded number of loop
iterations. -/
inductive RetryResult (R : Type)
  | ok (r : R)
  | raised (e : String)
  | running
deriving DecidableEq

/-- The `while True` loop of `retry.wrapper` (functools.py:35-45), one
constructor case per iteration. The counter value of the previous iteration is
carried in the last argument only to be overwritten by `attempt = 0`, which
the source places INSIDE the loop (functools.py:36); on failure the guard
`attempt < attempts - 1` therefore always compares `0 < attempts - 1`. -/
def retryLoop {R : Type} (attempts : Int) (f : Nat → Except String R) :
    Nat → Nat → Int → RetryResult R
  | 0, _, _ => RetryResult.running
  | fuel + 1, call, _prev =>
    let attempt : Int := 0
    match f call with
    | Except.ok r => RetryResult.ok r
    | Except.error e =>
      if attempt < attempts - 1 then
        retryLoop attempts f fuel (call + 1) (attempt + 1)
      else
        RetryResult.raised e

/-! ### Helper lemmas -/

theorem pyStripList_append_left (a s : List Char) (ha : a.all isPySpace = true) :
    pyStripList (a ++ s) = pyStripList s := by
  unfold pyStripList
  rw [List.dropWhile_append_of_pos (List.all_eq_true.mp ha)]

theorem pyStripList_append_right (s c : List Char) (hc : c.all isPySpace = true) :
    pyStripList (s ++ c) = pyStripList s := by
  unfold pyStripList
  rw [List.dropWhile_append]
  by_cases h : (s.dropWhile isPySpace).isEmpty
  · rw [if_pos h]
    have hs : s.dropWhile isPySpace = [] := List.isEmpty_iff.mp h
    have hcnil : c.dropWhile isPySpace = [] :=
      List.dropWhile_eq_nil_iff.mpr (List.all_eq_true.mp hc)
    rw [hs, hcnil]
  · rw [if_neg h, List.reverse_append]
    rw [List.dropWhile_append_of_pos (fun x hx =>
      List.all_eq_true.mp hc x (List.mem_reverse.mp hx))]

theorem pyStrip_pad (pre row post : String) (hpre : pre.data.all isPySpace = true)
    (hpost : post.data.all isPySpace = true) :
    pyStrip (pre ++ row ++ post) = pyStrip row := by
  unfold pyStrip
  rw [String.data_append, String.data_append,
    pyStripList_append_right _ _ hpost, pyStripList_append_left _ _ hpre]

/-! ### Claim theorems -/

/-- Claim C6: a 4-field row with a numeric port yields exactly those host,
port, username, password values with the given scheme; a 2-field row yields
absent credentials; and surrounding whitespace is trimmed before splitting,
so a padded row parses identically to its unpadded form. -/
theorem C6_from_row_valid_fields :
    (∀ (row h p u w : String) (scheme : ProxyScheme) (n : Int),
        pySplit ':' (pyStrip row) = [h, p, u, w] → pythonInt p = some n →
        StaticProxy.from_proxy_row row scheme = Except.ok ⟨scheme, h, n, some u, some w⟩) ∧
    (∀ (row h p : String) (scheme : ProxyScheme) (n : Int),
        pySplit ':' (pyStrip row) = [h, p] → pythonInt p = some n →
        StaticProxy.from_proxy_row row scheme = Except.ok ⟨scheme, h, n, none, none⟩) ∧
    (∀ (pre row post : String) (scheme : ProxyScheme),
        pre.data.all isPySpace = true → post.data.all isPySpace = true →
        StaticProxy.from_proxy_row (pre ++ row ++ post) scheme =
          StaticProxy.from_proxy_row row scheme) := by
  refine ⟨?_, ?_, ?_⟩
  · intro row h p u w scheme n hsplit hport
    unfold StaticProxy.from_proxy_row
    rw [hsplit]
    simp only [hport]
  · intro row h p scheme n hsplit hport
    unfold StaticProxy.from_proxy_row
    rw [hsplit]
    simp only [hport]
  · intro pre row post scheme hpre hpost
    unfold StaticProxy.from_proxy_row
    rw [pyStrip_pad pre row post hpre hpost]

/-- Claim C6 witness: the padded row of the spec example parses identically
to its trimmed form, and a concrete 4-field row parses to its fields. -/
theorem C6_witness :
    StaticProxy.from_proxy_row ("  " ++ "host:1:u:p" ++ "  ") ProxyScheme.http =
      StaticProxy.from_proxy_row "host:1:u:p" ProxyScheme.http ∧
    StaticProxy.from_proxy_row "host:1:u:p" ProxyScheme.http =
      Except.ok ⟨ProxyScheme.http, "host", 1, some "u", some "p"⟩ := by
  constructor
  · exact C6_from_row_valid_fields.2.2 "  " "host:1:u:p" "  " ProxyScheme.http
      (by decide) (by decide)
  · exact C6_from_row_valid_fields.1 "host:1:u:p" "host" "1" "u" "p" ProxyScheme.http 1
      (by decide) (by decide)

/-- Claim C7: a row splitting into a field count other than 2 or 4 fails with
the `Invalid proxy row` `ValueError`; a 2- or 4-field row whose port is not a
valid integer literal fails with the `int()` parsing `ValueError`. -/
theorem C7_from_row_errors :
    (∀ (row : String) (scheme : ProxyScheme),
        (pySplit ':' (pyStrip row)).length ≠ 2 → (pySplit ':' (pyStrip row)).length ≠ 4 →
        StaticProxy.from_proxy_row row scheme = Except.error PyError.formatError) ∧
    (∀ (row h p u w : String) (scheme : ProxyScheme),
        pySplit ':' (pyStrip row) = [h, p, u, w] → pythonInt p = none →
        StaticProxy.from_proxy_row row scheme = Except.error (PyError.intParseError p)) ∧
    (∀ (row h p : String) (scheme : ProxyScheme),
        pySplit ':' (pyStrip row) = [h, p] → pythonInt p = none →
        StaticProxy.from_proxy_row row scheme = Except.error (PyError.intParseError p)) := by
  refine ⟨?_, ?_, ?_⟩
  · intro row scheme h2 h4
    unfold StaticProxy.from_proxy_row
    generalize pySplit ':' (pyStrip row) = l at h2 h4 ⊢
    match l with
    | [] => rfl
    | [a] => rfl
    | [a, b] => exact absurd rfl h2
    | [a, b, c] => rfl
    | [a, b, c, d] => exact absurd rfl h4
    | a :: b :: c :: d :: x :: t => rfl
  · intro row h p u w scheme hsplit hport
    unfold StaticProxy.from_proxy_row
    rw [hsplit]
    simp only [hport]
  · intro row h p scheme hsplit hport
    unfold StaticProxy.from_proxy_row
    rw [hsplit]
    simp only [hport]

/-- Claim C7 witness: the test rows `invalid_format` and `host:port:user`
fail with the format error; `a:xx` fails with the `int()` parsing error. -/
theorem C7_witness :
    StaticProxy.from_proxy_row "invalid_format" ProxyScheme.http =
      Except.error PyError.formatError ∧
    StaticProxy.from_proxy_row "a:xx" ProxyScheme.http =
      Except.error (PyError.intParseError "xx") := by
  constructor
  · exact C7_from_row_errors.1 "invalid_format" ProxyScheme.http (by decide) (by decide)
  · exact C7_from_row_errors.2.2 "a:xx" "a" "xx" ProxyScheme.http (by decide) (by decide)

/-- Claim C8 counterexample: construction does NOT reject ports outside
1–65535. `fromRow` accepts port `0` and port `70000`, and the env-loader
model passes an out-of-range port straight through. -/
theorem C8_counterexample :
    StaticProxy.from_proxy_row "h:0" ProxyScheme.http =
      Except.ok ⟨ProxyScheme.http, "h", 0, none, none⟩ ∧
    StaticProxy.from_proxy_row "h:70000" ProxyScheme.http =
      Except.ok ⟨ProxyScheme.http, "h", 70000, none, none⟩ ∧
    (ProxyEnv.proxy ⟨"h", ProxyScheme.http, 70000, some "u", some "p"⟩).port = 70000 := by
  refine ⟨by decide, by decide, rfl⟩

/-- Claim C8 (amended): no port range check exists anywhere — a successfully
constructed `StaticProxy` carries whatever integer the port field parsed to,
including values outside 1–65535: `fromRow` succeeds on any row whose port
field is a valid integer literal, and the env loader copies `PROXY_PORT`
into the proxy unchecked. -/
theorem C8_port_unchecked (row h p : String) (scheme : ProxyScheme) (n : Int)
    (hsplit : pySplit ':' (pyStrip row) = [h, p]) (hport : pythonInt p = some n) :
    StaticProxy.from_proxy_row row scheme = Except.ok ⟨scheme, h, n, none, none⟩ ∧
    ∀ cfg : ProxyEnv, cfg.proxy.port = cfg.PROXY_PORT := by
  constructor
  · unfold StaticProxy.from_proxy_row
    rw [hsplit]
    simp only [hport]
  · intro cfg
    rfl

/-- Claim C8 witness: the amended theorem applied to the row `h:0`. -/
theorem C8_witness :
    StaticProxy.from_proxy_row "h:0" ProxyScheme.socks5 =
      Except.ok ⟨ProxyScheme.socks5, "h", 0, none, none⟩ ∧
    ∀ cfg : ProxyEnv, cfg.proxy.port = cfg.PROXY_PORT :=
  C8_port_unchecked "h:0" "h" "0" ProxyScheme.socks5 0 (by decide) (by decide)

/-- Claim C9: the httpx conversion decides auth by truthiness, not presence:
an empty-string username or password suppresses auth even though the field
is present, and auth is attached exactly when both credentials are present
and non-empty. -/
theorem C9_httpx_auth_truthiness (p : StaticProxy) :
    ((p.username = some "" ∨ p.password = some "") → (p.httpx).auth = none) ∧
    ((p.httpx).auth.isSome = true ↔
      (∃ u, p.username = some u ∧ u ≠ "") ∧ ∃ w, p.password = some w ∧ w ≠ "") := by
  constructor
  · intro hcase
    rcases hcase with hu | hw
    · simp [StaticProxy.httpx, pyTruthy, hu]
    · simp [StaticProxy.httpx, pyTruthy, hw]
  · rcases hu : p.username with _ | u <;> rcases hw : p.password with _ | w <;>
      simp [StaticProxy.httpx, pyTruthy, hu, hw]

/-- Claim C9 witness: a proxy with username present but empty (password
non-empty) gets no auth in its httpx descriptor. -/
theorem C9_witness :
    (StaticProxy.httpx ⟨ProxyScheme.http, "h", 80, some "", some "p"⟩).auth = none :=
  (C9_httpx_auth_truthiness ⟨ProxyScheme.http, "h", 80, some "", some "p"⟩).1 (Or.inl rfl)

/-- Rotation trace over a non-empty list, from an arbitrary cursor: the
`i`-th yielded element is the one at index `(c + i) mod length`, and the
cursor ends at `c + k`. -/
theorem RotatingProxy.run_mk (ps : List StaticProxy) (hne : ps ≠ []) :
    ∀ (k c : Nat),
      (RotatingProxy.run ⟨ps, c⟩ k).1 =
        (List.range k).map (fun i => ps.getD ((c + i) % ps.length) default) ∧
      (RotatingProxy.run ⟨ps, c⟩ k).2 = ⟨ps, c + k⟩ := by
  intro k
  induction k with
  | zero =>
    intro c
    simp [RotatingProxy.run]
  | succ k ih =>
    intro c
    have hpos : 0 < ps.length := List.length_pos.mpr hne
    have hlt : c % ps.length < ps.length := Nat.mod_lt _ hpos
    have hnext : RotatingProxy.next ⟨ps, c⟩ =
        some (ps.getD (c % ps.length) default, ⟨ps, c + 1⟩) := by
      unfold RotatingProxy.next
      simp [List.getElem?_eq_getElem hlt, List.getD_eq_getElem ps default hlt]
    constructor
    · show (RotatingProxy.run ⟨ps, c⟩ (k + 1)).1 = _
      unfold RotatingProxy.run
      rw [hnext]
      simp only []
      rw [(ih (c + 1)).1, List.range_succ_eq_map, List.map_cons, List.map_map]
      congr 1
      apply List.map_congr_left
      intro i _
      simp only [Function.comp_apply, Nat.succ_eq_add_one]
      have hci : c + 1 + i = c + (i + 1) := by omega
      rw [hci]
    · show (RotatingProxy.run ⟨ps, c⟩ (k + 1)).2 = _
      unfold RotatingProxy.run
      rw [hnext]
      simp only []
      rw [(ih (c + 1)).2]
      congr 1
      omega

/-- Claim C5: `next()` returns the element at the cursor and advances the
cursor by one modulo the length: from `[A, B, C]` four calls yield
`A, B, C, A`, and in general the `k`-th call (1-based) yields the element at
index `(k-1) mod length`. -/
theorem C5_next_round_robin :
    (∀ A B C : StaticProxy,
      ((RotatingProxy.ofList [A, B, C]).run 4).1 = [A, B, C, A]) ∧
    (∀ ps : List StaticProxy, ps ≠ [] → ∀ k : Nat,
      ((RotatingProxy.ofList ps).run k).1 =
        (List.range k).map (fun i => ps.getD (i % ps.length) default)) := by
  have general : ∀ ps : List StaticProxy, ps ≠ [] → ∀ k : Nat,
      ((RotatingProxy.ofList ps).run k).1 =
        (List.range k).map (fun i => ps.getD (i % ps.length) default) := by
    intro ps hne k
    have := (RotatingProxy.run_mk ps hne k 0).1
    simpa [RotatingProxy.ofList] using this
  refine ⟨?_, general⟩
  intro A B C
  rw [general [A, B, C] (by simp) 4]
  simp [List.range_succ, List.getD]

/-- Claim C5 witness: the general rotation law applied to a concrete
two-element list for three calls. -/
theorem C5_witness :
    ((RotatingProxy.ofList
        [⟨ProxyScheme.http, "a", 1, none, none⟩, ⟨ProxyScheme.http, "b", 2, none, none⟩]).run 3).1 =
      (List.range 3).map
        (fun i =>
          List.getD
            [⟨ProxyScheme.http, "a", 1, none, none⟩, ⟨ProxyScheme.http, "b", 2, none, none⟩]
            (i % 2) default) :=
  C5_next_round_robin.2
    [⟨ProxyScheme.http, "a", 1, none, none⟩, ⟨ProxyScheme.http, "b", 2, none, none⟩]
    (by simp) 3

/-- Claim C4: each of the three conversion methods calls `next()` exactly
once and returns the conversion of that element, so any two successive conversion
calls on a rotation over `[A, B]` use `A` then `B`, each advancing the
cursor by one. -/
theorem C4_conversions_advance (A B : StaticProxy) (m1 m2 : ConvMethod) :
    (RotatingProxy.ofList [A, B]).convert m1 =
      some (A.convert m1, ⟨[A, B], 1⟩) ∧
    RotatingProxy.convert ⟨[A, B], 1⟩ m2 =
      some (B.convert m2, ⟨[A, B], 2⟩) := by
  cases m1 <;> cases m2 <;> exact ⟨rfl, rfl⟩

/-- Under either fall-through condition — file settings failing validation,
or the configured file missing — `load_proxy_env` behaves as its second
half, the `ProxyEnv` attempt. -/
theorem load_proxy_env_fallback (e : Env) (fs : FS)
    (sh : List StaticProxy → List StaticProxy)
    (hfile : ProxyFile.ofEnv e = Except.error PyError.validationError ∨
      ∃ cfg, ProxyFile.ofEnv e = Except.ok cfg ∧ fs.lookup cfg.PROXY_FILE_PATH = none) :
    load_proxy_env e fs sh = tryProxyEnv e := by
  rcases hfile with hval | ⟨cfg, hcfg, hlookup⟩
  · unfold load_proxy_env
    rw [hval]
    rfl
  · unfold load_proxy_env
    simp only [hcfg]
    unfold ProxyFile.load
    simp only [hlookup]
    rfl

/-- Claim C3: the file loader is attempted first; absent file settings or a
missing file fall through to the env loader, whose success is returned; and
when the env loader also fails validation the call fails with the final
configuration `Exception`, whose message names both configuration shapes. -/
theorem C3_fallback_order (e : Env) (fs : FS)
    (sh : List StaticProxy → List StaticProxy)
    (hfile : ProxyFile.ofEnv e = Except.error PyError.validationError ∨
      ∃ cfg, ProxyFile.ofEnv e = Except.ok cfg ∧ fs.lookup cfg.PROXY_FILE_PATH = none) :
    (∀ s : ProxyEnv, ProxyEnv.ofEnv e = Except.ok s →
        load_proxy_env e fs sh = Except.ok (LoadedProxy.static s.proxy)) ∧
    (ProxyEnv.ofEnv e = Except.error PyError.validationError →
        load_proxy_env e fs sh = Except.error (PyError.exception noValidMsg) ∧
        ∃ s1 s2 s3 : String,
          noValidMsg = s1 ++ "ProxyEnv" ++ s2 ++ "ProxyFile" ++ s3) := by
  rw [load_proxy_env_fallback e fs sh hfile]
  constructor
  · intro s hs
    unfold tryProxyEnv
    rw [hs]
  · intro henv
    refine ⟨?_, "No valid proxy settings found. Provide either variables for \x60",
      "\x60 or for \x60", "\x60", by decide⟩
    unfold tryProxyEnv
    rw [henv]

/-- Claim C3 witness: with an empty environment both loaders fail validation
and the final configuration `Exception` is raised. -/
theorem C3_witness :
    load_proxy_env ⟨none, none, none, none, none, none⟩ [] id =
      Except.error (PyError.exception noValidMsg) ∧
    ∃ s1 s2 s3 : String,
      noValidMsg = s1 ++ "ProxyEnv" ++ s2 ++ "ProxyFile" ++ s3 :=
  (C3_fallback_order ⟨none, none, none, none, none, none⟩ [] id
      (Or.inl (by decide))).2 (by decide)

/-- Claim C2: when the file settings validate and the file exists, a bad row
(either `ValueError` of `from_proxy_row`) or an empty row list is fatal: the
file loader error itself is the overall result, with no fall-through to the
env loader. -/
theorem C2_broken_file_is_fatal (e : Env) (fs : FS)
    (sh : List StaticProxy → List StaticProxy) (cfg : ProxyFile) (content : String)
    (hcfg : ProxyFile.ofEnv e = Except.ok cfg)
    (hfile : fs.lookup cfg.PROXY_FILE_PATH = some content) :
    (parseRows cfg.PROXY_SCHEME (pySplit '\n' content) = Except.error PyError.formatError →
        load_proxy_env e fs sh = Except.error PyError.formatError) ∧
    (∀ lit : String,
        parseRows cfg.PROXY_SCHEME (pySplit '\n' content) =
          Except.error (PyError.intParseError lit) →
        load_proxy_env e fs sh = Except.error (PyError.intParseError lit)) ∧
    (parseRows cfg.PROXY_SCHEME (pySplit '\n' content) = Except.ok [] →
        load_proxy_env e fs sh = Except.error PyError.emptyFileError) := by
  refine ⟨?_, ?_, ?_⟩
  · intro hparse
    unfold load_proxy_env
    simp only [hcfg]
    unfold ProxyFile.load
    simp only [hfile, hparse]
    rfl
  · intro lit hparse
    unfold load_proxy_env
    simp only [hcfg]
    unfold ProxyFile.load
    simp only [hfile, hparse]
    rfl
  · intro hparse
    unfold load_proxy_env
    simp only [hcfg]
    unfold ProxyFile.load
    simp only [hfile, hparse]
    rfl

/-- Claim C2 witness: a configured file with a 3-field row fails with the
format `ValueError` and an all-blank file fails with the empty-file
`ValueError`, even though a complete `ProxyEnv` configuration is present. -/
theorem C2_witness :
    load_proxy_env ⟨some "proxies.txt", some "http", some "h", some "1", some "u", some "p"⟩
        [("proxies.txt", "a:b:c")] id = Except.error PyError.formatError ∧
    load_proxy_env ⟨some "proxies.txt", some "http", some "h", some "1", some "u", some "p"⟩
        [("proxies.txt", "\n  \n")] id = Except.error PyError.emptyFileError := by
  constructor
  · exact (C2_broken_file_is_fatal _ _ id ⟨"proxies.txt", ProxyScheme.http⟩ "a:b:c"
      (by decide) (by decide)).1 (by decide)
  · exact (C2_broken_file_is_fatal _ _ id ⟨"proxies.txt", ProxyScheme.http⟩ "\n  \n"
      (by decide) (by decide)).2.2 (by decide)

/-- Claim C1 (code divergence): with only the env-mode settings host, scheme
and port present — no file path, no credentials — `load_proxy_env` does NOT
return a credential-less `StaticProxy`: `ProxyEnv` requires `PROXY_USERNAME`
and `PROXY_PASSWORD` to be set (their `str | None` annotations carry no
default, so pydantic v2 treats them as required), and the call ends in the
final configuration `Exception`. Setting both variables makes the same
environment succeed. -/
theorem C1_env_credentials_required :
    load_proxy_env ⟨none, some "http", some "proxy.example.com", some "8080", none, none⟩
        [] id = Except.error (PyError.exception noValidMsg) ∧
    load_proxy_env
        ⟨none, some "http", some "proxy.example.com", some "8080", some "u", some "p"⟩
        [] id =
      Except.ok (LoadedProxy.static
        ⟨ProxyScheme.http, "proxy.example.com", 8080, some "u", some "p"⟩) := by
  exact ⟨by decide, by decide⟩

/-- Claim C10: because `attempt = 0` sits at the top of the `while True`
loop, the failure guard always compares `0 < attempts - 1`: with
`attempts ≥ 2` an always-failing function is retried forever (no amount of
fuel makes the wrapper re-raise), while `attempts ≤ 1` re-raises the first
failure immediately. -/
theorem C10_retry_counter_reset {R : Type} (attempts : Int) (f : Nat → Except String R) :
    (2 ≤ attempts → (∀ k : Nat, ∃ e : String, f k = Except.error e) →
      ∀ (fuel call : Nat) (a : Int),
        retryLoop attempts f fuel call a = RetryResult.running) ∧
    (attempts ≤ 1 → ∀ (fuel call : Nat) (a : Int) (e : String),
        f call = Except.error e →
        retryLoop attempts f (fuel + 1) call a = RetryResult.raised e) := by
  constructor
  · intro hge hfail fuel
    induction fuel with
    | zero =>
      intro call a
      rfl
    | succ fuel ih =>
      intro call a
      obtain ⟨e, he⟩ := hfail call
      unfold retryLoop
      rw [he]
      simp only []
      rw [if_pos (by omega)]
      exact ih (call + 1) 1
  · intro hle fuel call a e he
    unfold retryLoop
    rw [he]
    simp only []
    rw [if_neg (by omega)]

/-- Claim C10 witness: with 3 attempts an always-failing function is still
looping after 5 iterations; with 1 attempt the first failure is re-raised. -/
theorem C10_witness :
    retryLoop (R := Nat) 3 (fun _ => Except.error "boom") 5 0 0 = RetryResult.running ∧
    retryLoop (R := Nat) 1 (fun _ => Except.error "boom") 1 0 0 =
      RetryResult.raised "boom" := by
  constructor
  · exact (C10_retry_counter_reset 3 (fun _ => Except.error "boom")).1 (by omega)
      (fun k => ⟨"boom", rfl⟩) 5 0 0
  · exact (C10_retry_counter_reset 1 (fun _ => Except.error "boom")).2 (by omega) 0 0 0
      "boom" rfl

/-- Claim C4 witness: on a rotation over two concrete proxies, a `url`
conversion then an `httpx` conversion use the first and second proxy
respectively, advancing the cursor each time. -/
theorem C4_witness :
    (RotatingProxy.ofList
        [⟨ProxyScheme.http, "a", 1, none, none⟩,
         ⟨ProxyScheme.http, "b", 2, none, none⟩]).convert ConvMethod.url =
      some (StaticProxy.convert ⟨ProxyScheme.http, "a", 1, none, none⟩ ConvMethod.url,
        ⟨[⟨ProxyScheme.http, "a", 1, none, none⟩,
          ⟨ProxyScheme.http, "b", 2, none, none⟩], 1⟩) ∧
    RotatingProxy.convert
        ⟨[⟨ProxyScheme.http, "a", 1, none, none⟩,
          ⟨ProxyScheme.http, "b", 2, none, none⟩], 1⟩ ConvMethod.httpx =
      some (StaticProxy.convert ⟨ProxyScheme.http, "b", 2, none, none⟩ ConvMethod.httpx,
        ⟨[⟨ProxyScheme.http, "a", 1, none, none⟩,
          ⟨ProxyScheme.http, "b", 2, none, none⟩], 2⟩) :=
  C4_conversions_advance ⟨ProxyScheme.http, "a", 1, none, none⟩
    ⟨ProxyScheme.http, "b", 2, none, none⟩ ConvMethod.url ConvMethod.httpx

end ScraperTools
